import Mathlib

/-!
Verification of the geometry-container repository (point.py, vector.py,
container.py) against its natural-language specification.

Embedding conventions:
* Python numeric coordinate values are modelled as arbitrary-precision
  integers (`Int`, Python `int`); the IEEE-754 `float` pathway is idealized
  to exact arithmetic.
* Python strings are modelled as `String`, or as `List Char` where the
  claims reason character by character (the regex-based parser).
* Raised exceptions are modelled with `Except PyErr`; each error
  constructor names the Python exception class it stands for.
* Dynamically typed call arguments are modelled with the `PyVal` union of
  the runtime values the source code can actually receive: numbers,
  strings, Point instances, Vector instances, the `Vector` class object
  (which `@classmethod` binding passes as a positional argument), and
  `None`.
-/

/-- Python exception kinds raised by the modelled code. -/
inductive PyErr where
  | valueError (msg : String)
  | typeError (msg : String)
  | attributeError (msg : String)
  | nameError (msg : String)
deriving DecidableEq, Repr

/-- `Point` from point.py: three coordinates.  Construction validates that
each coordinate is numeric; in this typed embedding coordinates are `Int`,
so the validated constructor is the structure constructor itself. -/
structure Point where
  x : Int
  y : Int
  z : Int
deriving DecidableEq, Repr

/-- `Vector` from vector.py.  In Python, `Vector` subclasses `Point`
(fields `x`, `y`, `z` live in the instance dict via `Point.__init__`) and
adds `start_point` and `end_point`.  Modelled as a flat structure with the
same five fields. -/
structure Vector where
  x : Int
  y : Int
  z : Int
  start_point : Point
  end_point : Point
deriving DecidableEq, Repr

/-- Union of the Python runtime values that flow into the dynamically
typed entry points of the source code. -/
inductive PyVal where
  | num (n : Int)
  | pystr (s : String)
  | point (p : Point)
  | vec (v : Vector)
  | classVector
  | pynone
deriving DecidableEq, Repr

/-- Python truthiness of the modelled values (`if json_string:` etc.):
`None` is falsy, `0` is falsy, the empty string is falsy, instances and
class objects are truthy. -/
def PyVal.truthy : PyVal → Bool
  | .pynone => false
  | .num n => decide (n ≠ 0)
  | .pystr s => !s.isEmpty
  | _ => true

/-- `Vector.__init__(self, x=None, y=None, z=None, start_point=Point(0,0,0),
end_point=None)`.  If `end_point` is `None`, all of `x`, `y`, `z` must be
given (else `ValueError`), `Point.__init__` stores them, and `end_point`
is computed as `start_point + (x, y, z)`.  Otherwise the coordinates are
derived as `end_point - start_point` and any explicit `x`, `y`, `z` are
ignored. -/
def Vector.init (x? y? z? : Option Int) (start_point : Point)
    (end_point? : Option Point) : Except PyErr Vector :=
  match end_point? with
  | none =>
    match x?, y?, z? with
    | some x, some y, some z =>
      .ok { x := x, y := y, z := z,
            start_point := start_point,
            end_point := { x := start_point.x + x, y := start_point.y + y,
                           z := start_point.z + z } }
    | _, _, _ => .error (.valueError "Cannot create a Vector from provided args")
  | some ep =>
    .ok { x := ep.x - start_point.x, y := ep.y - start_point.y,
          z := ep.z - start_point.z,
          start_point := start_point, end_point := ep }

/-- The result of the coordinate-mode constructor call
`Vector(x, y, z, start_point=sp)` (which always succeeds); spelled out so
that the arithmetic operations below can build result vectors the way the
source does, via `cls(x, y, z, start_point=...)`. -/
def Vector.ofCoords (x y z : Int) (sp : Point) : Vector :=
  { x := x, y := y, z := z,
    start_point := sp,
    end_point := { x := sp.x + x, y := sp.y + y, z := sp.z + z } }


/-- The redundancy invariant stated by the spec: the coordinate triple
equals the endpoint delta. -/
def Vector.invariant (v : Vector) : Prop :=
  v.x = v.end_point.x - v.start_point.x ∧
  v.y = v.end_point.y - v.start_point.y ∧
  v.z = v.end_point.z - v.start_point.z

instance instDecVectorInvariant (v : Vector) : Decidable (Vector.invariant v) := by
  unfold Vector.invariant
  infer_instance

/-- `Vector.__setattr__(self, name, value)`:
`x`/`y`/`z` delegate to `Point.__setattr__`, which checks
`isinstance(value, (float, int))` and then writes `self.__dict__[name]`;
`start_point`/`end_point` require `isinstance(value, Point)` and write the
dict entry; any other name raises `AttributeError`.  Only the named field
is written; no other field is recomputed.  (A `Vector` argument would also
pass the `isinstance(value, Point)` check in the source; that aliasing
corner is outside this model, which stores endpoint values as `Point`.) -/
def Vector.setattrPy (v : Vector) (name : String) (value : PyVal) :
    Except PyErr Vector :=
  if name = "x" || name = "y" || name = "z" then
    match value with
    | .num n =>
      .ok (if name = "x" then { v with x := n }
           else if name = "y" then { v with y := n }
           else { v with z := n })
    | _ => .error (.valueError "Illegal coordinate")
  else if name = "start_point" || name = "end_point" then
    match value with
    | .point p =>
      .ok (if name = "start_point" then { v with start_point := p }
           else { v with end_point := p })
    | _ => .error (.valueError "Illegal Point")
  else .error (.attributeError "Vector has no attribute")

/-- `Point.__eq__(self, other)`: `False` unless `isinstance(other, Point)`
— which holds for both `Point` and `Vector` instances, since `Vector`
subclasses `Point` — then component-wise coordinate comparison. -/
def Point.eqPy (self : Point) (other : PyVal) : Bool :=
  match other with
  | .point p => decide (self.x = p.x ∧ self.y = p.y ∧ self.z = p.z)
  | .vec v => decide (self.x = v.x ∧ self.y = v.y ∧ self.z = v.z)
  | _ => false

/-- `Vector.__eq__(self, other)`: `False` unless `isinstance(other, Vector)`
(a plain `Point` is not), then `start_point` and `end_point` are compared
with `Point.__eq__`, i.e. component-wise. -/
def Vector.eqPy (self : Vector) (other : PyVal) : Bool :=
  match other with
  | .vec o =>
    decide (self.start_point = o.start_point ∧ self.end_point = o.end_point)
  | _ => false

/-- `Vector.cross(cls, first, second)` (a well-formed `@classmethod`): the
`isinstance` guard passes for the typed `Vector` arguments, and the result
is `cls(x, y, z, start_point=first.start_point)` with the source's exact
component formulas. -/
def Vector.cross (first second : Vector) : Vector :=
  Vector.ofCoords
    (first.y * second.z - first.z * second.y)
    (first.x * second.z - first.z * second.x)
    (first.x * second.y - first.y * second.x)
    first.start_point

/-- `Vector.__add__(self, other)` for a `Vector` operand (the non-Vector
operand branch raises `ValueError` before this point): a new Vector with
coordinate-wise sums anchored at `self.start_point`. -/
def Vector.add (self other : Vector) : Vector :=
  Vector.ofCoords (self.x + other.x) (self.y + other.y) (self.z + other.z)
    self.start_point

/-- Neither `Vector`, `Point`, `list` nor `object` defines `__neg__`, so
the unary-minus attribute simply does not exist on Vector instances. -/
def vectorNegMethod : Option (Vector → Vector) := none

/-- `Vector.__sub__(self, other)`: after the `isinstance(other, Vector)`
guard (which raises `ValueError` for non-Vector operands), the body is
`return self + -other`; evaluating `-other` looks up `__neg__`, which does
not exist, so Python raises `TypeError` before `__add__` is reached. -/
def Vector.sub (self : Vector) (other : PyVal) : Except PyErr Vector :=
  match other with
  | .vec o =>
    match vectorNegMethod with
    | some neg => .ok (Vector.add self (neg o))
    | none => .error (.typeError "bad operand type for unary -: Vector")
  | _ => .error (.valueError "Cannot substract from Vector")

/-- Body of `Vector.from_json(json_string=None, json_dict=None)` as written
in the source.  `from_json` is decorated `@classmethod` but its parameter
list has no `cls`, so the descriptor binds the class object to
`json_string`; `PyVal.classVector` models that value.  The body first
evaluates `json.loads(json_string)` whenever `json_string` is truthy, and
`json.loads` raises `TypeError` for any non-string argument.  The success
path (a parsed dict reaching `return cls(...)`) is unreachable from any
bound call, and `cls` is in any case an unbound name in this body; the
branches no modelled call reaches are marked accordingly. -/
def vector_from_json (json_string json_dict : PyVal) : Except PyErr Vector :=
  if json_string.truthy then
    match json_string with
    | .pystr _ => .error (.valueError "unmodelled: JSON text parse, then unbound name cls")
    | _ => .error (.typeError "the JSON object must be str, bytes or bytearray")
  else if !json_dict.truthy then
    .error (.valueError "Illegal Vector JSON format")
  else
    .error (.nameError "name cls is not defined")

/-- The bound call `Vector.from_json(arg)`: the `@classmethod` binding
passes the class object into the first parameter slot (`json_string`) and
the caller's argument lands in `json_dict`. -/
def Vector.from_json_call (arg : PyVal) : Except PyErr Vector :=
  vector_from_json PyVal.classVector arg

/-- The bound call `Vector.collinear(...)`.  `collinear` is decorated
`@classmethod` but its parameter list `(first, second)` has no `cls`, so
the class object is bound to `first`.  A call with two explicit arguments
therefore passes three positional values into a two-parameter function:
`TypeError`.  With a single explicit argument the body runs with
`first = <class Vector>`, and `isinstance(<class Vector>, Vector)` is
false, so the guard raises `ValueError`; the ratio comparison is
unreachable from any bound call. -/
def Vector.collinear_call (args : List PyVal) : Except PyErr Bool :=
  match args with
  | [_] => .error (.valueError "Cannot check if non-vectors are collinear")
  | _ => .error (.typeError "collinear() takes 2 positional arguments but 3 were given")

/-- An element stored in a `Container`: the values that pass
`isinstance(el, (Vector, Point))`. -/
inductive Elem where
  | point (p : Point)
  | vector (v : Vector)
deriving DecidableEq, Repr

/-- `isinstance(el, (Vector, Point))`, together with the typed projection
into the element sum. -/
def toElem? (v : PyVal) : Option Elem :=
  match v with
  | .point p => some (.point p)
  | .vec w => some (.vector w)
  | _ => none

/-- `Container.__init__(self, *elements)` as written: it first builds
`approved_elements = list(filter(lambda el: isinstance(el, (Vector, Point)), elements))`
and then runs `for arg in elements: if isinstance(arg, (Point, Vector)):
approved_elements.append(arg)` over the same input, so every conforming
element is added twice: once by the filter and once by the loop. -/
def Container.init (elements : List PyVal) : List Elem :=
  elements.filterMap toElem? ++ elements.filterMap toElem?

/-- `Container.append(self, element)`: raises `ValueError` with the exact
message below when the element is not a `Point` or `Vector` — before the
underlying `list.append` runs, so a raising call leaves the list exactly
as it was — and otherwise appends at the end. -/
def Container.append (c : List Elem) (element : PyVal) :
    Except PyErr (List Elem) :=
  match toElem? element with
  | some e => .ok (c ++ [e])
  | none => .error (.valueError "Can only add Vector or Point to Container")

/-- `Point.to_json(self)` with `to_dict=False`: `json.dumps` of the dict
built with insertion order `x`, `y`, `z`, `type`.  `json.dumps` uses its
default separators, a comma-space between items and a colon-space after
each key, and renders a Python `int` in plain decimal. -/
def Point.to_json_str (p : Point) : String :=
  "\x7b\"x\": " ++ toString p.x ++ ", \"y\": " ++ toString p.y ++
    ", \"z\": " ++ toString p.z ++ ", \"type\": \"Point\"\x7d"

/-- `Vector.to_json(self)` with `to_dict=False`: `json.dumps` of the dict
built with insertion order `start_point`, `end_point`, `x`, `y`, `z`,
`type`, where the two endpoints are the structured dicts produced by
`Point.to_json(True)`. -/
def Vector.to_json_str (v : Vector) : String :=
  "\x7b\"start_point\": " ++ Point.to_json_str v.start_point ++
    ", \"end_point\": " ++ Point.to_json_str v.end_point ++
    ", \"x\": " ++ toString v.x ++ ", \"y\": " ++ toString v.y ++
    ", \"z\": " ++ toString v.z ++ ", \"type\": \"Vector\"\x7d"

/-- Structured JSON of one stored element, as dispatched by
`element.to_json(True)` inside `Container.to_json`. -/
def Elem.to_json_str : Elem → String
  | .point p => Point.to_json_str p
  | .vector v => Vector.to_json_str v

/-- `Container.to_json(self)` with `to_dict=False`: `json.dumps` of
`{'elements': [element.to_json(True) for element in self], 'type': 'Container'}`;
the list renders with comma-space separators. -/
def Container.to_json_str (c : List Elem) : String :=
  "\x7b\"elements\": [" ++
    String.intercalate ", " (c.map Elem.to_json_str) ++
    "], \"type\": \"Container\"\x7d"

/-- Serialization of the container built by appending `Point(1, 1, 1)` and
then `Vector(2, 2, 2)` to an empty container, as an `Except` computation
so that every step goes through the validated operations. -/
def c9Output : Except PyErr String := do
  let v ← Vector.init (some 2) (some 2) (some 2) ⟨0, 0, 0⟩ none
  let c1 ← Container.append [] (PyVal.point ⟨1, 1, 1⟩)
  let c2 ← Container.append c1 (PyVal.vec v)
  pure (Container.to_json_str c2)


/-- The regex character class `[0-9]` from `POINT_REGEX` in point.py. -/
def isDigitC (c : Char) : Bool :=
  c == '0' || c == '1' || c == '2' || c == '3' || c == '4' ||
  c == '5' || c == '6' || c == '7' || c == '8' || c == '9'

/-- The split character class `[\(;\)]` (`POINT_SPLITTERS`) from point.py. -/
def isSplitterC (c : Char) : Bool :=
  c == '(' || c == ';' || c == ')'

/-- Python decimal rendering `str(m)` of a non-negative integer: its base-10
digits, most significant first (and `"0"` for zero). -/
def natStrL (m : Nat) : List Char :=
  if m = 0 then ['0'] else ((Nat.digits 10 m).map Nat.digitChar).reverse

/-- Python decimal rendering `str(n)` of an `int`: a leading minus sign for
negative values, then the digits. -/
def intStrL (n : Int) : List Char :=
  if n < 0 then '-' :: natStrL n.natAbs else natStrL n.toNat

/-- `Point.__str__`: the f-string `({x};{y};{z})`. -/
def Point.strL (p : Point) : List Char :=
  '(' :: intStrL p.x ++ ';' :: intStrL p.y ++ ';' :: intStrL p.z ++ [')']

/-- Numeric value of a digit string (the digit-only case of Python
`float(...)` under the integer coordinate model). -/
def parseNatL (cs : List Char) : Nat :=
  cs.foldl (fun acc c => 10 * acc + (c.toNat - 48)) 0

/-- Python `float(token)` restricted to the integer coordinate model: an
optional sign followed by digits.  Tokens with a fractional part are
outside the modelled numeric domain (`none`). -/
def tokenToInt? (cs : List Char) : Option Int :=
  match cs with
  | [] => none
  | c :: rest =>
    if c == '-' then
      if rest ≠ [] ∧ rest.all isDigitC then some (-(parseNatL rest : Int)) else none
    else if c == '+' then
      if rest ≠ [] ∧ rest.all isDigitC then some ((parseNatL rest : Int)) else none
    else if (c :: rest).all isDigitC then some ((parseNatL (c :: rest) : Int)) else none

/-- The `[+-]?` prefix of the number pattern: consume one sign character if
present. -/
def matchNumSign (cs : List Char) : List Char :=
  match cs with
  | [] => []
  | c :: rest => if c == '+' || c == '-' then rest else c :: rest

/-- Matcher for the regex piece `[+-]?([0-9]*[.])?[0-9]+`, returning the
rest of the input after the match.  The backtracking search of the regex
engine is equivalent to this deterministic maximal munch: the optional
group `([0-9]*[.])?` commits exactly when a digit follows the dot
(otherwise the group must match empty and the leading digits feed
`[0-9]+`), because no alternative decomposition can change the first
unconsumed character class. -/
def matchNumBody (cs1 : List Char) : Option (List Char) :=
  let ds := cs1.takeWhile isDigitC
  let rest := cs1.dropWhile isDigitC
  if !rest.isEmpty && (rest.headD ' ' == '.') then
    let rest2 := rest.tail
    if (rest2.takeWhile isDigitC).isEmpty then
      if ds.isEmpty then none else some rest
    else some (rest2.dropWhile isDigitC)
  else if ds.isEmpty then none else some rest

def matchNum (cs : List Char) : Option (List Char) :=
  matchNumBody (matchNumSign cs)

/-- Consume one expected literal character of the pattern. -/
def expectChar (c : Char) (cs : List Char) : Option (List Char) :=
  match cs with
  | [] => none
  | x :: rest => if x == c then some rest else none

/-- `re.match(POINT_REGEX, string)` from `Point.from_str`: a prefix match
(no trailing anchor) of `\(N;N;N\)` with `N = [+-]?([0-9]*[.])?[0-9]+`. -/
def pointRegexMatch (cs : List Char) : Bool :=
  (((((((expectChar '(' cs).bind
    matchNum).bind
    (expectChar ';')).bind
    matchNum).bind
    (expectChar ';')).bind
    matchNum).bind
    (expectChar ')')).isSome

/-- `re.split(POINT_SPLITTERS, string)`: cut the string at every occurrence
of `(`, `;` or `)` (empty pieces included, as in Python). -/
def resplit (cs : List Char) : List (List Char) :=
  match cs with
  | [] => [[]]
  | c :: rest =>
    if isSplitterC c then [] :: resplit rest
    else (c :: (resplit rest).headD []) :: (resplit rest).tail

/-- `Point.from_str(string)`: reject unless the regex prefix-matches, then
split on the delimiter class, drop empty pieces (`filter(None, ...)`),
unpack exactly three pieces (a count mismatch is the unpacking
`ValueError`), and convert each piece (`float`, here on the integer
domain). -/
def Point.from_str (cs : List Char) : Except PyErr Point :=
  if pointRegexMatch cs then
    match (resplit cs).filter (fun l => !l.isEmpty) with
    | [a, b, c] =>
      match tokenToInt? a, tokenToInt? b, tokenToInt? c with
      | some x, some y, some z => .ok { x := x, y := y, z := z }
      | _, _, _ => .error (.valueError "unmodelled: non-integer numeric literal")
    | _ => .error (.valueError "cannot unpack values")
  else .error (.valueError "Illegal Point string format")


/-- The coordinate-mode branch of `Vector.__init__` is exactly
`Vector.ofCoords`. -/
theorem Vector.init_coords (x y z : Int) (sp : Point) :
    Vector.init (some x) (some y) (some z) sp none =
      Except.ok (Vector.ofCoords x y z sp) := rfl

/-- Every digit character rendered by `Nat.digitChar` on a base-10 digit
is in the `[0-9]` class, and its code point recovers the digit. -/
theorem digitChar_props : ∀ d : Nat, d < 10 →
    isDigitC (Nat.digitChar d) = true ∧ (Nat.digitChar d).toNat - 48 = d := by
  decide

/-- A `[0-9]` character is not a sign, a dot, or a delimiter. -/
theorem digit_facts : ∀ c : Char, isDigitC c = true →
    (c == '+') = false ∧ (c == '-') = false ∧ (c == '.') = false ∧
      isSplitterC c = false := by
  intro c h
  simp only [isDigitC, Bool.or_eq_true, beq_iff_eq] at h
  rcases h with (((((((((rfl | rfl) | rfl) | rfl) | rfl) | rfl) | rfl) | rfl) | rfl) | rfl) <;>
    decide

theorem natStr_ne_nil (m : Nat) : natStrL m ≠ [] := by
  unfold natStrL
  split
  · simp
  · simp only [ne_eq, List.reverse_eq_nil_iff, List.map_eq_nil_iff,
      Nat.digits_ne_nil_iff_ne_zero]
    assumption

theorem natStr_digits (m : Nat) : ∀ c ∈ natStrL m, isDigitC c = true := by
  unfold natStrL
  split
  · intro c hc
    simp only [List.mem_singleton] at hc
    subst hc
    decide
  · intro c hc
    simp only [List.mem_reverse, List.mem_map] at hc
    obtain ⟨d, hd, rfl⟩ := hc
    exact (digitChar_props d (Nat.digits_lt_base (by norm_num) hd)).1

/-- Folding the decimal digit characters, most significant first, with the
base-10 accumulator recovers `Nat.ofDigits`. -/
theorem foldl_digitChars (L : List Nat) (hL : ∀ d ∈ L, d < 10) :
    ∀ a : Nat,
      ((L.map Nat.digitChar).reverse).foldl (fun acc c => 10 * acc + (c.toNat - 48)) a
        = a * 10 ^ L.length + Nat.ofDigits 10 L := by
  induction L with
  | nil => intro a; simp [Nat.ofDigits_nil]
  | cons d tl ih =>
    intro a
    have hd : d < 10 := hL d (by simp)
    have htl : ∀ e ∈ tl, e < 10 := fun e he => hL e (by simp [he])
    simp only [List.map_cons, List.reverse_cons, List.foldl_append,
      List.foldl_cons, List.foldl_nil, ih htl]
    rw [(digitChar_props d hd).2, Nat.ofDigits_cons]
    simp only [List.length_cons, pow_succ]
    ring

/-- Decimal render/parse round-trip on naturals. -/
theorem parseNat_natStr (m : Nat) : parseNatL (natStrL m) = m := by
  unfold natStrL
  split
  case isTrue h => subst h; decide
  case isFalse h =>
    unfold parseNatL
    rw [foldl_digitChars (Nat.digits 10 m) (fun d hd => Nat.digits_lt_base (by norm_num) hd) 0]
    simp [Nat.ofDigits_digits]

/-- Decimal render/parse round-trip on integers, through the sign-aware
token conversion. -/
theorem tokenToInt_intStr (n : Int) : tokenToInt? (intStrL n) = some n := by
  unfold intStrL
  split
  case isTrue hn =>
    unfold tokenToInt?
    simp only [beq_self_eq_true, if_true, ne_eq, natStr_ne_nil, not_false_eq_true,
      List.all_eq_true, true_and]
    rw [if_pos (natStr_digits _)]
    rw [parseNat_natStr]
    simp only [Option.some.injEq]
    omega
  case isFalse hn =>
    cases hA : natStrL n.toNat with
    | nil => exact absurd hA (natStr_ne_nil _)
    | cons a A' =>
      have ha : isDigitC a = true := natStr_digits _ a (by rw [hA]; simp)
      obtain ⟨hap, ham, hc1, hc2⟩ := digit_facts a ha
      have hall : (a :: A').all isDigitC = true := by
        rw [← hA]
        simp only [List.all_eq_true]
        exact natStr_digits _
      simp only [tokenToInt?, ham, hap, Bool.false_eq_true, if_false, hall,
        eq_self_iff_true, if_true]
      rw [← hA, parseNat_natStr]
      simp only [Option.some.injEq]
      omega

/-- `takeWhile`/`dropWhile` cut exactly at the first character failing the
predicate. -/
theorem takeWhile_all_append (p : Char → Bool) :
    ∀ (A : List Char), (∀ c ∈ A, p c = true) → ∀ (d : Char), p d = false →
      ∀ t, (A ++ d :: t).takeWhile p = A ∧ (A ++ d :: t).dropWhile p = d :: t := by
  intro A
  induction A with
  | nil =>
    intro _ d hd t
    simp [List.takeWhile_cons, List.dropWhile_cons, hd]
  | cons a A' ih =>
    intro hA d hd t
    have ha : p a = true := hA a (by simp)
    have hA' : ∀ c ∈ A', p c = true := fun c hc => hA c (by simp [hc])
    have hih := ih hA' d hd t
    simp [List.takeWhile_cons, List.dropWhile_cons, ha, hih.1, hih.2]

/-- `matchNumBody` on an all-digit chunk followed by a non-dot non-digit
delimiter consumes exactly the chunk. -/
theorem matchNumBody_digits (A : List Char) (hne : A ≠ [])
    (hdig : ∀ c ∈ A, isDigitC c = true) (d : Char) (hd : isDigitC d = false)
    (hdot : (d == '.') = false) (t : List Char) :
    matchNumBody (A ++ d :: t) = some (d :: t) := by
  have htake := takeWhile_all_append isDigitC A hdig d hd t
  have hAe : A.isEmpty = false := by
    cases A with
    | nil => exact absurd rfl hne
    | cons x xs => rfl
  unfold matchNumBody
  simp [htake.1, htake.2, hdot, hAe]

/-- `matchNum` on an unsigned all-digit token followed by a non-dot
non-digit delimiter consumes exactly the token. -/
theorem matchNum_append_digits (A : List Char) (hne : A ≠ [])
    (hdig : ∀ c ∈ A, isDigitC c = true) (d : Char) (hd : isDigitC d = false)
    (hdot : (d == '.') = false) (t : List Char) :
    matchNum (A ++ d :: t) = some (d :: t) := by
  obtain ⟨a, A', rfl⟩ := List.exists_cons_of_ne_nil hne
  obtain ⟨hap, ham, had, has⟩ := digit_facts a (hdig a (by simp))
  unfold matchNum
  simp only [List.cons_append]
  have hsign : matchNumSign (a :: (A' ++ d :: t)) = a :: (A' ++ d :: t) := by
    simp [matchNumSign, hap, ham]
  rw [hsign, ← List.cons_append]
  exact matchNumBody_digits (a :: A') hne hdig d hd hdot t

/-- `matchNum` likewise consumes a minus sign before the digits. -/
theorem matchNum_neg_append_digits (A : List Char) (hne : A ≠ [])
    (hdig : ∀ c ∈ A, isDigitC c = true) (d : Char) (hd : isDigitC d = false)
    (hdot : (d == '.') = false) (t : List Char) :
    matchNum (('-' :: A) ++ d :: t) = some (d :: t) := by
  unfold matchNum
  simp only [List.cons_append]
  have hsign : matchNumSign ('-' :: (A ++ d :: t)) = A ++ d :: t := by
    simp [matchNumSign]
  rw [hsign]
  exact matchNumBody_digits A hne hdig d hd hdot t

/-- `matchNum` consumes exactly the decimal rendering of any integer when
a `;` or `)` delimiter follows. -/
theorem matchNum_intStr (n : Int) (d : Char) (hd : d = ';' ∨ d = ')')
    (t : List Char) : matchNum (intStrL n ++ d :: t) = some (d :: t) := by
  have hd1 : isDigitC d = false := by rcases hd with rfl | rfl <;> decide
  have hd2 : (d == '.') = false := by rcases hd with rfl | rfl <;> decide
  unfold intStrL
  split
  · exact matchNum_neg_append_digits _ (natStr_ne_nil _) (natStr_digits _) d hd1 hd2 t
  · exact matchNum_append_digits _ (natStr_ne_nil _) (natStr_digits _) d hd1 hd2 t

/-- The point regex accepts the rendering of every Point. -/
theorem pointRegex_strL (p : Point) : pointRegexMatch (Point.strL p) = true := by
  have h1 := matchNum_intStr p.x ';' (Or.inl rfl)
    (intStrL p.y ++ ';' :: (intStrL p.z ++ [')']))
  have h2 := matchNum_intStr p.y ';' (Or.inl rfl) (intStrL p.z ++ [')'])
  have h3 := matchNum_intStr p.z ')' (Or.inr rfl) []
  unfold Point.strL pointRegexMatch
  simp [expectChar, h1, h2, h3]

/-- `re.split` cuts a delimiter-free chunk right at the next delimiter. -/
theorem resplit_append (A : List Char) (hA : ∀ c ∈ A, isSplitterC c = false)
    (d : Char) (hd : isSplitterC d = true) (t : List Char) :
    resplit (A ++ d :: t) = A :: resplit t := by
  induction A with
  | nil => simp [resplit, hd]
  | cons a A' ih =>
    have ha : isSplitterC a = false := hA a (by simp)
    have hA' : ∀ c ∈ A', isSplitterC c = false := fun c hc => hA c (by simp [hc])
    simp [resplit, ha, ih hA']

theorem intStr_no_splitter (n : Int) : ∀ c ∈ intStrL n, isSplitterC c = false := by
  unfold intStrL
  split
  · intro c hc
    simp only [List.mem_cons] at hc
    rcases hc with rfl | hc
    · decide
    · exact (digit_facts c (natStr_digits _ c hc)).2.2.2
  · intro c hc
    exact (digit_facts c (natStr_digits _ c hc)).2.2.2

theorem intStr_isEmpty (n : Int) : (intStrL n).isEmpty = false := by
  cases h : intStrL n with
  | nil =>
    exfalso
    revert h
    unfold intStrL
    split
    · simp
    · exact natStr_ne_nil _
  | cons a A' => rfl

/-- Splitting the rendered Point and dropping empty pieces yields exactly
the three coordinate tokens. -/
theorem filter_resplit_strL (p : Point) :
    (resplit (Point.strL p)).filter (fun l => !l.isEmpty) =
      [intStrL p.x, intStrL p.y, intStrL p.z] := by
  have hx := intStr_no_splitter p.x
  have hy := intStr_no_splitter p.y
  have hz := intStr_no_splitter p.z
  unfold Point.strL
  have h0 : resplit ('(' :: (intStrL p.x ++ ';' :: (intStrL p.y ++ ';' :: (intStrL p.z ++ [')'])))) =
      [] :: resplit (intStrL p.x ++ ';' :: (intStrL p.y ++ ';' :: (intStrL p.z ++ [')']))) := by
    simp [resplit, isSplitterC]
  simp only [List.cons_append, List.append_assoc] at h0 ⊢
  rw [h0]
  rw [resplit_append _ hx ';' (by decide), resplit_append _ hy ';' (by decide),
    resplit_append _ hz ')' (by decide)]
  simp [List.filter, intStr_isEmpty, resplit]


/-- Claim C1 (as stated) is false: the coordinate/endpoint redundancy
invariant is established by the constructor but is not preserved by field
mutation.  `Vector(1, 0, 0)` satisfies it; after `v.x = 2` the vector has
`x = 2` while `end_point.x - start_point.x = 1`. -/
theorem c1_setattr_breaks_invariant :
    Vector.init (some 1) (some 0) (some 0) ⟨0, 0, 0⟩ none =
      Except.ok (Vector.ofCoords 1 0 0 ⟨0, 0, 0⟩) ∧
    Vector.setattrPy (Vector.ofCoords 1 0 0 ⟨0, 0, 0⟩) "x" (PyVal.num 2) =
      Except.ok { x := 2, y := 0, z := 0,
                  start_point := ⟨0, 0, 0⟩, end_point := ⟨1, 0, 0⟩ } ∧
    ¬ Vector.invariant { x := 2, y := 0, z := 0,
                         start_point := ⟨0, 0, 0⟩, end_point := ⟨1, 0, 0⟩ } :=
  ⟨rfl, rfl, by decide⟩

/-- Claim C1, amended: every Vector produced by either constructor mode
satisfies the invariant `x = end_point.x - start_point.x` (and likewise
`y`, `z`), but `setField` updates only the named field (shown here for
`x`), so mutation does not in general preserve the invariant. -/
theorem c1_constructors_establish_invariant :
    (∀ (x? y? z? : Option Int) (sp : Point) (ep? : Option Point) (v : Vector),
      Vector.init x? y? z? sp ep? = Except.ok v → Vector.invariant v) ∧
    (∀ (w : Vector) (n : Int) (w' : Vector),
      Vector.setattrPy w "x" (PyVal.num n) = Except.ok w' →
        w' = { w with x := n }) := by
  constructor
  · intro x? y? z? sp ep? v h
    cases ep? with
    | some ep =>
      simp only [Vector.init, Except.ok.injEq] at h
      subst h
      exact ⟨rfl, rfl, rfl⟩
    | none =>
      cases x? <;> cases y? <;> cases z? <;>
        simp only [Vector.init, Except.ok.injEq, reduceCtorEq] at h
      subst h
      refine ⟨by simp, by simp, by simp⟩
  · intro w n w' h
    simp only [Vector.setattrPy] at h
    simp at h
    exact h.symm

/-- Witness for `c1_constructors_establish_invariant` at concrete inputs:
`Vector(3, 4, 5, start_point=Point(1, 1, 1))` satisfies the invariant, and
setting `x` to `9` on it rewrites exactly the `x` field. -/
theorem c1_constructors_establish_invariant_witness :
    Vector.invariant (Vector.ofCoords 3 4 5 ⟨1, 1, 1⟩) ∧
    ({ x := 9, y := 4, z := 5, start_point := ⟨1, 1, 1⟩,
       end_point := ⟨4, 5, 6⟩ } : Vector) =
      { Vector.ofCoords 3 4 5 ⟨1, 1, 1⟩ with x := 9 } :=
  ⟨c1_constructors_establish_invariant.1 (some 3) (some 4) (some 5)
      ⟨1, 1, 1⟩ none (Vector.ofCoords 3 4 5 ⟨1, 1, 1⟩) rfl,
    c1_constructors_establish_invariant.2 (Vector.ofCoords 3 4 5 ⟨1, 1, 1⟩)
      9 _ rfl⟩

/-- Claim C2: bulk construction in fact keeps every conforming element
twice (the filtered list is extended by a loop over the same input), so
`Container(Point(1, 1, 1), 3, "bad")` has length 2, not 1; the bad
elements are silently dropped and no error is raised. -/
theorem c2_init_duplicates_elements :
    Container.init [PyVal.point ⟨1, 1, 1⟩, PyVal.num 3, PyVal.pystr "bad"] =
      [Elem.point ⟨1, 1, 1⟩, Elem.point ⟨1, 1, 1⟩] ∧
    (Container.init
      [PyVal.point ⟨1, 1, 1⟩, PyVal.num 3, PyVal.pystr "bad"]).length = 2 :=
  ⟨rfl, rfl⟩

/-- Claim C4: the JSON round-trip for Vector cannot succeed.  Because
`from_json` is a `@classmethod` without a `cls` parameter, the bound call
`Vector.from_json(v.to_json())` passes the class object into
`json.loads`, which raises `TypeError`; shown at `v = Vector(2, 2, 2)`. -/
theorem c4_from_json_round_trip_raises :
    Vector.from_json_call
      (PyVal.pystr (Vector.to_json_str (Vector.ofCoords 2 2 2 ⟨0, 0, 0⟩))) =
      Except.error (PyErr.typeError "the JSON object must be str, bytes or bytearray") :=
  rfl

/-- Claim C5: `cross(first, second)` returns the Vector with the source's
exact component formulas, anchored at `first`'s start point; and on the
concrete pair from the spec, `cross(Vector(1,0,0), Vector(0,1,0))` equals
`Vector(0,0,1)` under Vector equality (endpoint comparison). -/
theorem c5_cross_formula :
    ∀ (f s : Vector),
      (Vector.cross f s).x = f.y * s.z - f.z * s.y ∧
      (Vector.cross f s).y = f.x * s.z - f.z * s.x ∧
      (Vector.cross f s).z = f.x * s.y - f.y * s.x ∧
      (Vector.cross f s).start_point = f.start_point ∧
      Vector.eqPy
        (Vector.cross (Vector.ofCoords 1 0 0 ⟨0, 0, 0⟩)
          (Vector.ofCoords 0 1 0 ⟨0, 0, 0⟩))
        (PyVal.vec (Vector.ofCoords 0 0 1 ⟨0, 0, 0⟩)) = true :=
  fun _ _ => ⟨rfl, rfl, rfl, rfl, by decide⟩

/-- Claim C6: `collinear` can never compute the ratio test.  The bound
call with two explicit arguments passes three positional values (the
class object plus the two vectors) into the two-parameter function, so
Python raises `TypeError`; shown at the spec's own example pair. -/
theorem c6_collinear_call_raises :
    Vector.collinear_call
      [PyVal.vec (Vector.ofCoords 1 2 3 ⟨0, 0, 0⟩),
       PyVal.vec (Vector.ofCoords 2 4 6 ⟨0, 0, 0⟩)] =
      Except.error
        (PyErr.typeError "collinear() takes 2 positional arguments but 3 were given") :=
  rfl

/-- Claim C7: subtraction of two Vectors raises instead of returning a
difference: the body `self + -other` needs `__neg__`, which no class in
the hierarchy defines, so unary minus raises `TypeError`; shown at
`Vector(1, 1, 1) - Vector(2, 2, 2)`. -/
theorem c7_sub_raises_type_error :
    Vector.sub (Vector.ofCoords 1 1 1 ⟨0, 0, 0⟩)
      (PyVal.vec (Vector.ofCoords 2 2 2 ⟨0, 0, 0⟩)) =
      Except.error (PyErr.typeError "bad operand type for unary -: Vector") :=
  rfl

/-- Claim C8: appending any element that is neither a Point nor a Vector
fails with `ValueError` carrying exactly the message
`Can only add Vector or Point to Container`, and the raise happens before
the underlying list append, so the container is unchanged (the operation
returns no new list). -/
theorem c8_append_rejects_non_elements :
    ∀ (c : List Elem) (e : PyVal), toElem? e = none →
      Container.append c e =
        Except.error (PyErr.valueError "Can only add Vector or Point to Container") := by
  intro c e h
  unfold Container.append
  rw [h]

/-- Witness for `c8_append_rejects_non_elements`: `Container().append(3)`
raises and produces no container state. -/
theorem c8_append_rejects_non_elements_witness :
    Container.append [] (PyVal.num 3) =
      Except.error (PyErr.valueError "Can only add Vector or Point to Container") :=
  c8_append_rejects_non_elements [] (PyVal.num 3) rfl

/-- Claim C9 (as stated) is false: the serialized container is not the
claimed compact byte string, because `json.dumps` uses its default
separators (a space after every colon and comma) and the Vector dict
lists `start_point` and `end_point` before `x`, `y`, `z`. -/
theorem c9_to_json_not_claimed_bytes :
    c9Output ≠
      Except.ok "\x7b\"elements\":[\x7b\"x\":1,\"y\":1,\"z\":1,\"type\":\"Point\"\x7d,\x7b\"x\":2,\"y\":2,\"z\":2,\"start_point\":\x7b\"x\":0,\"y\":0,\"z\":0,\"type\":\"Point\"\x7d,\"end_point\":\x7b\"x\":2,\"y\":2,\"z\":2,\"type\":\"Point\"\x7d,\"type\":\"Vector\"\x7d],\"type\":\"Container\"\x7d" := by
  have h : c9Output =
      Except.ok "\x7b\"elements\": [\x7b\"x\": 1, \"y\": 1, \"z\": 1, \"type\": \"Point\"\x7d, \x7b\"start_point\": \x7b\"x\": 0, \"y\": 0, \"z\": 0, \"type\": \"Point\"\x7d, \"end_point\": \x7b\"x\": 2, \"y\": 2, \"z\": 2, \"type\": \"Point\"\x7d, \"x\": 2, \"y\": 2, \"z\": 2, \"type\": \"Vector\"\x7d], \"type\": \"Container\"\x7d" := rfl
  rw [h]
  intro hc
  exact absurd (Except.ok.inj hc) (by decide)

/-- Claim C9, amended: appending `Point(1, 1, 1)` and then `Vector(2, 2, 2)`
to an empty Container and serializing with `to_json` yields exactly the
byte string below — `json.dumps` default separators put a space after
each colon and comma, and the Vector object lists `start_point` and
`end_point` before `x`, `y`, `z`. -/
theorem c9_to_json_exact_bytes :
    c9Output =
      Except.ok "\x7b\"elements\": [\x7b\"x\": 1, \"y\": 1, \"z\": 1, \"type\": \"Point\"\x7d, \x7b\"start_point\": \x7b\"x\": 0, \"y\": 0, \"z\": 0, \"type\": \"Point\"\x7d, \"end_point\": \x7b\"x\": 2, \"y\": 2, \"z\": 2, \"type\": \"Point\"\x7d, \"x\": 2, \"y\": 2, \"z\": 2, \"type\": \"Vector\"\x7d], \"type\": \"Container\"\x7d" :=
  rfl

/-- Claim C10: equality between Point and Vector is asymmetric under the
classes' `__eq__` methods.  A Vector is an instance of Point (subclass),
so `Point.__eq__` type-checks it and compares coordinates; a plain Point
is not an instance of Vector, so `Vector.__eq__` returns False. -/
theorem c10_mixed_equality_asymmetric :
    ∀ (p : Point) (v : Vector), p.x = v.x → p.y = v.y → p.z = v.z →
      Point.eqPy p (PyVal.vec v) = true ∧
      Vector.eqPy v (PyVal.point p) = false := by
  intro p v h1 h2 h3
  constructor
  · simp [Point.eqPy]
    exact ⟨h1, h2, h3⟩
  · rfl

/-- Witness for `c10_mixed_equality_asymmetric` at `Point(1, 2, 3)` and
`Vector(1, 2, 3)`. -/
theorem c10_mixed_equality_asymmetric_witness :
    Point.eqPy ⟨1, 2, 3⟩ (PyVal.vec (Vector.ofCoords 1 2 3 ⟨0, 0, 0⟩)) = true ∧
    Vector.eqPy (Vector.ofCoords 1 2 3 ⟨0, 0, 0⟩) (PyVal.point ⟨1, 2, 3⟩) = false :=
  c10_mixed_equality_asymmetric ⟨1, 2, 3⟩ (Vector.ofCoords 1 2 3 ⟨0, 0, 0⟩)
    rfl rfl rfl

/-- Claim C3: for all (integer-modelled) numeric coordinates, parsing the
string rendering of a Point round-trips to an equal Point. -/
theorem c3_point_string_round_trip :
    ∀ (x y z : Int),
      Point.from_str (Point.strL { x := x, y := y, z := z }) =
        Except.ok { x := x, y := y, z := z } := by
  intro x y z
  unfold Point.from_str
  rw [if_pos (by exact_mod_cast pointRegex_strL ⟨x, y, z⟩)]
  rw [filter_resplit_strL ⟨x, y, z⟩]
  simp only [tokenToInt_intStr]
